import Mathlib

set_option allowUnsafeReducibility true in
attribute [semireducible] Rat.mul Rat.inv Rat.add Rat.sub Rat.ofScientific

/-!
Shallow embedding of the price-bot core pipeline (storage.py, scraper.py,
api_scraper.py, selenium_scraper.py). Python floats are modelled as rationals
(`ℚ`); Python dicts for products/deals are modelled by the `Product`
structure; the on-disk JSON storage file is modelled by `FileContent`.
String operations are carried out on `List Char` (structural, hence
evaluable) and wrapped back into `String` at the boundaries.
-/

/-- A product/deal record as produced by the scrapers and consumed by
storage (`name`, `current_price`, `retail_price`, `url`,
`discount_percent` keys of the Python dict). -/
structure Product where
  name : String
  current_price : ℚ
  retail_price : ℚ
  url : String
  discount_percent : ℚ
deriving DecidableEq, Repr

/-- Python `s.strip()`: remove leading and trailing whitespace. -/
def pyStrip (cs : List Char) : List Char :=
  ((cs.dropWhile Char.isWhitespace).reverse.dropWhile Char.isWhitespace).reverse

/-- Worker for Python `s.split()`: accumulate the current token (reversed),
emit it at each whitespace run boundary, discard empty pieces. -/
def splitWsAux : List Char → List Char → List (List Char)
  | [], acc => if acc = [] then [] else [acc.reverse]
  | c :: cs, acc =>
      if c.isWhitespace then
        if acc = [] then splitWsAux cs [] else acc.reverse :: splitWsAux cs []
      else splitWsAux cs (c :: acc)

/-- Python `s.split()` with no argument: split on runs of whitespace,
discarding empty pieces. -/
def pySplit (cs : List Char) : List (List Char) :=
  splitWsAux cs []

/-- Numeric value of a list of decimal digit characters. -/
def digitsVal (cs : List Char) : ℕ :=
  cs.foldl (fun a c => 10 * a + (c.toNat - 48)) 0

/-- Exponent part of a Python float literal (after the `e`/`E`):
optional sign, then at least one digit, then end of string. -/
def pyFloatExp (mant : ℚ) (cs : List Char) : Option ℚ :=
  let (esgn, cs1) : ℤ × List Char :=
    match cs with
    | '-' :: r => (-1, r)
    | '+' :: r => (1, r)
    | r => (1, r)
  let ed := cs1.takeWhile Char.isDigit
  let rest := cs1.dropWhile Char.isDigit
  if ed.isEmpty || !rest.isEmpty then none
  else some (mant * (10 : ℚ) ^ (esgn * (digitsVal ed : ℤ)))

/-- Model of Python `float(s)` on finite decimal literals: optional sign,
digits with an optional decimal point (at least one digit overall), and an
optional exponent. The special forms `inf`/`nan` and underscore digit
separators accepted by CPython are outside the model (they never denote a
finite decimal price). -/
def pyFloat (cs : List Char) : Option ℚ :=
  let (sgn, cs1) : ℚ × List Char :=
    match cs with
    | '-' :: r => (-1, r)
    | '+' :: r => (1, r)
    | r => (1, r)
  let ip := cs1.takeWhile Char.isDigit
  let cs2 := cs1.dropWhile Char.isDigit
  let (fp, cs3) : List Char × List Char :=
    match cs2 with
    | '.' :: r => (r.takeWhile Char.isDigit, r.dropWhile Char.isDigit)
    | r => ([], r)
  if ip.isEmpty && fp.isEmpty then none
  else
    let mant : ℚ := sgn * ((digitsVal ip : ℚ) + (digitsVal fp : ℚ) / (10 : ℚ) ^ fp.length)
    match cs3 with
    | [] => some mant
    | 'e' :: r => pyFloatExp mant r
    | 'E' :: r => pyFloatExp mant r
    | _ => none

/-- Cleaning step of `_parse_price`: `.replace('$', '').replace(',', '')`
(single-character patterns, hence a character filter) followed by
`.strip()`. -/
def cleanPriceText (cs : List Char) : List Char :=
  pyStrip (cs.filter (fun c => c != '$' && c != ','))

/-- Embedding of `_parse_price` (scraper.py lines 209-231, identical in
selenium_scraper.py lines 219-231): remove `$` and `,`, strip, split on
whitespace, then return the value of the first token accepted by `float`,
or `None` when every token is rejected. -/
def parse_price (price_text : String) : Option ℚ :=
  (pySplit (cleanPriceText price_text.toList)).findSome? pyFloat

/-- Python `round(x, 2)` modelled on rationals: round `x*100` to the nearest
integer and divide back. (CPython breaks exact half-cent ties on the binary
double; the claims below do not depend on tie direction.) -/
def round2 (q : ℚ) : ℚ := ((round (q * 100) : ℤ) : ℚ) / 100

/-- Embedding of `_calculate_discount_percent` (scraper.py lines 233-248,
identical in selenium_scraper.py lines 233-238): `0.0` when `retail_price`
is falsy (`None` or `0`) or `current_price >= retail_price`; otherwise
`(retail - current) / retail * 100` rounded to 2 places. -/
def calculate_discount_percent (current_price : ℚ) (retail_price : Option ℚ) : ℚ :=
  match retail_price with
  | none => 0
  | some r =>
      if r = 0 ∨ current_price ≥ r then 0
      else round2 (((r - current_price) / r) * 100)

/-- Python `f"{q:.2f}"` as a character list: sign, integer number of
dollars, a dot, and exactly two cent digits, after rounding to the nearest
cent. (The `-0.00` CPython prints for tiny negative values rounding to zero
is not distinguished; prices are nonnegative in every claim.) -/
def formatF2L (q : ℚ) : List Char :=
  let m : ℤ := round (q * 100)
  (if m < 0 then ['-'] else []) ++ Nat.toDigits 10 (m.natAbs / 100)
    ++ '.' :: [Nat.digitChar (m.natAbs / 10 % 10), Nat.digitChar (m.natAbs % 10)]

/-- Python `f"{q:.2f}"` as a `String`. -/
def formatF2 (q : ℚ) : String :=
  String.mk (formatF2L q)

/-- Embedding of `DealStorage._create_deal_id` (storage.py lines 30-43):
trimmed name, `|`, price formatted to two decimals. -/
def create_deal_id (deal : Product) : String :=
  String.mk (pyStrip deal.name.toList) ++ "|" ++ formatF2 deal.current_price

/-- The configured threshold `DISCOUNT_THRESHOLD = 0.35` (config.py). -/
def DISCOUNT_THRESHOLD : ℚ := 35 / 100

/-- Embedding of `find_deep_discounts` (scraper.py lines 307-335, identical
logic in api_scraper.py lines 215-244): keep, in order, the products with
`retail_price > 0` whose price relative to retail is at most the threshold. -/
def find_deep_discounts (threshold : ℚ) : List Product → List Product
  | [] => []
  | p :: ps =>
      if 0 < p.retail_price ∧ p.current_price / p.retail_price ≤ threshold then
        p :: find_deep_discounts threshold ps
      else
        find_deep_discounts threshold ps

/-- Truthiness of an optional price in Python: `None` and `0.0` are falsy. -/
def priceTruthy : Option ℚ → Bool
  | none => false
  | some q => q != 0

/-- The pieces of markup `_extract_product_info` reads from one product
element: the stripped text of the name element when one is found, the
stripped text of the current-price and retail-price elements when found,
and the `href` of the link element when a link with a truthy `href` is
found. -/
structure Item where
  nameText : Option String
  priceText : Option String
  retailText : Option String
  href : Option String

/-- URL resolution step of `_extract_product_info`: absolute `href`s kept,
relative ones resolved against the Best Buy base, no link gives `''`. -/
def resolveUrl : Option String → String
  | none => ""
  | some h => if h.startsWith "http" then h else "https://www.bestbuy.com" ++ h

/-- Embedding of `_extract_product_info` (scraper.py lines 131-207,
identical logic in selenium_scraper.py lines 152-217): `None` without a
name element; parse the price texts; fall back `retail := current` when
current is truthy and retail falsy; return the dict only when the final
`if product_name and current_price:` check passes (numeric truthiness of
the parsed price). -/
def extract_product_info (item : Item) : Option Product :=
  match item.nameText with
  | none => none
  | some product_name =>
      let current_price : Option ℚ := item.priceText.bind (fun t => parse_price t)
      let retail_price0 : Option ℚ := item.retailText.bind (fun t => parse_price t)
      let retail_price : Option ℚ :=
        if priceTruthy current_price && !priceTruthy retail_price0 then current_price
        else retail_price0
      if product_name != "" && priceTruthy current_price then
        match current_price with
        | some c =>
            some { name := product_name
                   current_price := c
                   retail_price := retail_price.getD 0
                   url := resolveUrl item.href
                   discount_percent := calculate_discount_percent c retail_price }
        | none => none
      else none

/-! Storage model. The on-disk JSON file is either absent, unreadable as
JSON (which is also what a write interrupted after `open(..., 'w')` has
truncated the file leaves behind, since every strict prefix of the dumped
object is invalid JSON), or a well-formed document as written by
`save_deals`: a list of deal records each carrying a `found_at` stamp,
plus a `last_updated` stamp. -/

/-- A persisted deal record: the product dict plus the `found_at` stamp
added by `save_deals`. -/
structure StoredDeal where
  product : Product
  found_at : String
deriving DecidableEq, Repr

/-- The storage file as `save_deals`/`_load_cache` can encounter it. -/
inductive FileContent
  | missing
  | corrupt
  | good (deals : List StoredDeal) (last_updated : Option String)
deriving DecidableEq, Repr

/-- In-memory state of a `DealStorage` object paired with the content of
its backing file: `deals_cache` is the set of deal-id strings, `file` the
current on-disk state at `self.filepath`. -/
structure Storage where
  deals_cache : Finset String
  file : FileContent
deriving DecidableEq

/-- Identity set recorded in a storage file: empty for a missing file,
empty for an unreadable one, and the set of ids of the recorded deals
otherwise. -/
def fileIds : FileContent → Finset String
  | .missing => ∅
  | .corrupt => ∅
  | .good ds _ => (ds.map (fun sd => create_deal_id sd.product)).toFinset

/-- Embedding of `DealStorage._load_cache` (storage.py lines 17-28) run at
construction against file content `f`: the resulting cache, paired with
whether the `Error loading deals cache` warning was printed. A missing
file is skipped silently; an unreadable file is caught by the
`except Exception` handler (warning, empty cache); no exception escapes. -/
def load_cache (f : FileContent) : Storage × Bool :=
  match f with
  | .missing => (⟨∅, f⟩, false)
  | .corrupt => (⟨∅, f⟩, true)
  | .good ds lu => (⟨fileIds (.good ds lu), f⟩, false)

/-- Embedding of `DealStorage.is_new_deal` (storage.py lines 45-56). -/
def is_new_deal (st : Storage) (deal : Product) : Bool :=
  decide (create_deal_id deal ∉ st.deals_cache)

/-- Embedding of `DealStorage.filter_new_deals` (storage.py lines 58-68):
the list comprehension `[deal for deal in deals if self.is_new_deal(deal)]`. -/
def filter_new_deals (st : Storage) (deals : List Product) : List Product :=
  deals.filter (fun deal => is_new_deal st deal)

/-- How the attempt to write the storage file ends: normally; with the
`open(self.filepath, 'w')` call raising (file untouched); or with the
write raising after `open` has already truncated the file (leaving
unparsable partial JSON). -/
inductive WriteOutcome
  | ok
  | openFail
  | interrupted
deriving DecidableEq, Repr

/-- Read step of `save_deals` (storage.py lines 80-87): the record list of
the existing file, with the default `{'deals': [], 'last_updated': None}`
kept on a missing file or after the printed-and-swallowed read failure on
an unreadable one. -/
def readExisting : FileContent → List StoredDeal
  | .good ds _ => ds
  | _ => []

/-- Embedding of `DealStorage.save_deals` (storage.py lines 70-107) under
write outcome `w`, stamping `found_at`/`last_updated` with `now`. Returns
the new state and whether an exception escaped to the caller. Empty lists
return at once. Reading the existing file falls back to the default
`{'deals': [], 'last_updated': None}` on a missing or unreadable file (the
read failure is only printed). The cache is extended before the write is
attempted, and a failing write is caught by `except Exception` and only
printed, so no exception ever escapes. -/
def save_deals (st : Storage) (deals : List Product) (now : String) (w : WriteOutcome) :
    Storage × Bool :=
  if deals = [] then (st, false)
  else
    let newRecords := readExisting st.file ++ deals.map (fun d => StoredDeal.mk d now)
    let cache' := st.deals_cache ∪ (deals.map create_deal_id).toFinset
    let file' : FileContent :=
      match w with
      | .ok => .good newRecords (some now)
      | .openFail => st.file
      | .interrupted => .corrupt
    (⟨cache', file'⟩, false)

/-- Membership in the output of `find_deep_discounts`: a product is kept
exactly when it occurs in the input, has a positive retail price, and its
price relative to retail is at most the threshold. -/
theorem mem_find_deep_discounts (threshold : ℚ) (ps : List Product) (p : Product) :
    p ∈ find_deep_discounts threshold ps ↔
      p ∈ ps ∧ 0 < p.retail_price ∧ p.current_price / p.retail_price ≤ threshold := by
  induction ps with
  | nil => simp [find_deep_discounts]
  | cons q ps ih =>
      by_cases h : 0 < q.retail_price ∧ q.current_price / q.retail_price ≤ threshold
      · simp only [find_deep_discounts, if_pos h, List.mem_cons, ih]
        constructor
        · rintro (rfl | ⟨hmem, hc⟩)
          · exact ⟨Or.inl rfl, h⟩
          · exact ⟨Or.inr hmem, hc⟩
        · rintro ⟨rfl | hmem, hc⟩
          · exact Or.inl rfl
          · exact Or.inr ⟨hmem, hc⟩
      · simp only [find_deep_discounts, if_neg h, List.mem_cons, ih]
        constructor
        · rintro ⟨hmem, hc⟩
          exact ⟨Or.inr hmem, hc⟩
        · rintro ⟨rfl | hmem, hc⟩
          · exact absurd hc h
          · exact ⟨hmem, hc⟩

/-- C5: for every product and every threshold, membership in the
`find_deep_discounts` output is false when `retail_price ≤ 0`, and
otherwise holds exactly when `current_price / retail_price ≤ threshold`,
equality at the threshold included (the test is `≤`). -/
theorem C5_discount_classifier (threshold : ℚ) (ps : List Product) (p : Product) :
    (p.retail_price ≤ 0 → p ∉ find_deep_discounts threshold ps) ∧
    (0 < p.retail_price →
      (p ∈ find_deep_discounts threshold ps ↔
        p ∈ ps ∧ p.current_price / p.retail_price ≤ threshold)) := by
  constructor
  · intro hr hmem
    rcases (mem_find_deep_discounts threshold ps p).mp hmem with ⟨-, hpos, -⟩
    exact absurd hpos (not_lt.mpr hr)
  · intro hr
    rw [mem_find_deep_discounts]
    constructor
    · rintro ⟨hmem, -, hc⟩
      exact ⟨hmem, hc⟩
    · rintro ⟨hmem, hc⟩
      exact ⟨hmem, hr, hc⟩

/-- Witness for C5 at the spec's own examples: retail 1000 and price 300
(ratio 0.3 ≤ 0.35, kept, with the boundary test `≤`), and a retail-free
product with `retail_price = 0` (excluded). -/
theorem C5_witness :
    ((⟨"Zero", 5, 0, "", 0⟩ : Product) ∉
        find_deep_discounts DISCOUNT_THRESHOLD [⟨"Zero", 5, 0, "", 0⟩]) ∧
    ((⟨"Acme Laptop", 300, 1000, "", 70⟩ : Product) ∈
        find_deep_discounts DISCOUNT_THRESHOLD [⟨"Acme Laptop", 300, 1000, "", 70⟩] ↔
      (⟨"Acme Laptop", 300, 1000, "", 70⟩ : Product) ∈
          [(⟨"Acme Laptop", 300, 1000, "", 70⟩ : Product)] ∧
        (⟨"Acme Laptop", 300, 1000, "", 70⟩ : Product).current_price /
            (⟨"Acme Laptop", 300, 1000, "", 70⟩ : Product).retail_price ≤ DISCOUNT_THRESHOLD) :=
  ⟨(C5_discount_classifier DISCOUNT_THRESHOLD _ _).1 (by decide),
   (C5_discount_classifier DISCOUNT_THRESHOLD _ _).2 (by decide)⟩

/-- C9: loading the dedup store is never fatal (the model of `_load_cache`
is total): a missing file yields an empty identity set with no warning,
and an unreadable file yields an empty identity set with the recoverable
`Error loading deals cache` warning. -/
theorem C9_load_never_fatal :
    (load_cache .missing).1.deals_cache = ∅ ∧ (load_cache .missing).2 = false ∧
    (load_cache .corrupt).1.deals_cache = ∅ ∧ (load_cache .corrupt).2 = true := by
  decide

/-- C4: `filter_new_deals` is a stable filter: its output is an in-order
subsequence of the input, membership is exactly "identity absent from the
pre-batch cache", every copy of a new deal is kept (duplicates inside one
batch are each kept), already-seen deals are dropped entirely, and the
function is pure, so re-filtering its own output (no intervening commit)
changes nothing. -/
theorem C4_filter_new_deals (st : Storage) (deals : List Product) :
    (filter_new_deals st deals).Sublist deals ∧
    (∀ d, d ∈ filter_new_deals st deals ↔ d ∈ deals ∧ create_deal_id d ∉ st.deals_cache) ∧
    (∀ d, create_deal_id d ∉ st.deals_cache →
      (filter_new_deals st deals).count d = deals.count d) ∧
    (∀ d, create_deal_id d ∈ st.deals_cache → (filter_new_deals st deals).count d = 0) ∧
    filter_new_deals st (filter_new_deals st deals) = filter_new_deals st deals := by
  refine ⟨List.filter_sublist deals, ?_, ?_, ?_, ?_⟩
  · intro d
    simp [filter_new_deals, is_new_deal, List.mem_filter]
  · intro d hd
    induction deals with
    | nil => simp [filter_new_deals]
    | cons q ds ih =>
        by_cases hq : is_new_deal st q = true
        · simp only [filter_new_deals, List.filter_cons, hq, if_pos]
          by_cases hdq : q = d
          · subst hdq
            simpa [List.count_cons, filter_new_deals] using ih
          · simpa [List.count_cons, hdq, filter_new_deals] using ih
        · have hq' : is_new_deal st q = false := by
            cases h : is_new_deal st q
            · rfl
            · exact absurd h hq
          have hdq : q ≠ d := by
            intro h
            subst h
            simp [is_new_deal, hd] at hq'
          simp only [filter_new_deals, List.filter_cons, hq', Bool.false_eq_true, if_neg,
            not_false_iff]
          simpa [List.count_cons, hdq, filter_new_deals] using ih
  · intro d hd
    refine List.count_eq_zero.mpr ?_
    intro hmem
    rcases List.mem_filter.mp hmem with ⟨-, hnew⟩
    simp [is_new_deal, hd] at hnew
  · refine List.filter_eq_self.mpr ?_
    intro d hd
    exact (List.mem_filter.mp hd).2

/-- Witness for C4 at a concrete store and batch: `A` already seen, `B`
new and duplicated, so the filter keeps both copies of `B` and drops `A`. -/
theorem C4_witness :
    filter_new_deals ⟨{"A|1.00"}, .missing⟩
        [⟨"A", 1, 1, "", 0⟩, ⟨"B", 2, 2, "", 0⟩, ⟨"B", 2, 2, "", 0⟩]
      = [⟨"B", 2, 2, "", 0⟩, ⟨"B", 2, 2, "", 0⟩] ∧
    (filter_new_deals ⟨{"A|1.00"}, .missing⟩
        [⟨"A", 1, 1, "", 0⟩, ⟨"B", 2, 2, "", 0⟩, ⟨"B", 2, 2, "", 0⟩]).count ⟨"B", 2, 2, "", 0⟩
      = ([⟨"A", 1, 1, "", 0⟩, ⟨"B", 2, 2, "", 0⟩, ⟨"B", 2, 2, "", 0⟩] :
          List Product).count ⟨"B", 2, 2, "", 0⟩ ∧
    (filter_new_deals ⟨{"A|1.00"}, .missing⟩
        [⟨"A", 1, 1, "", 0⟩, ⟨"B", 2, 2, "", 0⟩, ⟨"B", 2, 2, "", 0⟩]).count ⟨"A", 1, 1, "", 0⟩
      = 0 :=
  ⟨by decide,
   (C4_filter_new_deals ⟨{"A|1.00"}, .missing⟩ _).2.2.1 _ (by decide),
   (C4_filter_new_deals ⟨{"A|1.00"}, .missing⟩ _).2.2.2.1 _ (by decide)⟩

/-- C6: `_create_deal_id` is a pure function of the deal dict whose value
is the trimmed name, the separator `|`, and the current price rendered
with exactly two digits after the decimal point; hence any two deals with
the same trimmed name and the same current price get the same identity. -/
theorem C6_deal_identity (d1 d2 : Product)
    (hname : pyStrip d1.name.toList = pyStrip d2.name.toList)
    (hprice : d1.current_price = d2.current_price) :
    create_deal_id d1 = create_deal_id d2 ∧
    ∃ intDigits cents : List Char,
      (create_deal_id d1).data
          = pyStrip d1.name.toList ++ '|' :: (intDigits ++ '.' :: cents) ∧
      cents.length = 2 := by
  constructor
  · unfold create_deal_id
    rw [hname, hprice]
  · refine ⟨(if round (d1.current_price * 100) < 0 then ['-'] else [])
        ++ Nat.toDigits 10 ((round (d1.current_price * 100)).natAbs / 100),
      [Nat.digitChar ((round (d1.current_price * 100)).natAbs / 10 % 10),
       Nat.digitChar ((round (d1.current_price * 100)).natAbs % 10)], ?_, rfl⟩
    simp [create_deal_id, formatF2, formatF2L]

/-- Witness for C6: two deal dicts differing in padding of the name and in
every other field, but with the same trimmed name and price, collapse to
one identity with two cent digits. -/
theorem C6_witness :
    pyStrip (" X " : String).toList = pyStrip ("X  " : String).toList ∧
    (⟨" X ", 100, 1, "a", 0⟩ : Product).current_price
        = (⟨"X  ", 100, 2, "b", 7⟩ : Product).current_price ∧
    (create_deal_id ⟨" X ", 100, 1, "a", 0⟩ = create_deal_id ⟨"X  ", 100, 2, "b", 7⟩ ∧
      ∃ intDigits cents : List Char,
        (create_deal_id ⟨" X ", 100, 1, "a", 0⟩).data
            = pyStrip (⟨" X ", 100, 1, "a", 0⟩ : Product).name.toList
                ++ '|' :: (intDigits ++ '.' :: cents) ∧
        cents.length = 2) :=
  ⟨by decide, by decide, C6_deal_identity _ _ (by decide) (by decide)⟩

/-- Bounds for `round(x, 2)` on `[0, 100]`. -/
theorem round2_bounds (y : ℚ) (h1 : 0 ≤ y) (h2 : y ≤ 100) :
    0 ≤ round2 y ∧ round2 y ≤ 100 := by
  have hlo : (0 : ℤ) ≤ round (y * 100) := by
    rw [round_eq]
    refine Int.le_floor.mpr ?_
    push_cast
    linarith
  have hhi : round (y * 100) ≤ 10000 := by
    rw [round_eq]
    have : (⌊y * 100 + 1 / 2⌋ : ℤ) < 10001 := by
      refine Int.floor_lt.mpr ?_
      push_cast
      linarith
    omega
  unfold round2
  constructor
  · refine div_nonneg ?_ (by norm_num)
    exact_mod_cast hlo
  · rw [div_le_iff₀ (by norm_num : (0 : ℚ) < 100)]
    calc ((round (y * 100) : ℤ) : ℚ) ≤ ((10000 : ℤ) : ℚ) := by exact_mod_cast hhi
    _ = 100 * 100 := by norm_num

/-- C8: for a nonnegative current price, `_calculate_discount_percent` is
`0` when the retail price is `None`, nonpositive, or not above the current
price, and otherwise is `(retail - current) / retail * 100` rounded to two
places; the result always lies in `[0, 100]`. -/
theorem C8_discount_percent (current_price : ℚ) (retail_price : Option ℚ)
    (hc : 0 ≤ current_price) :
    (retail_price = none → calculate_discount_percent current_price retail_price = 0) ∧
    (∀ r, retail_price = some r → r ≤ 0 ∨ r ≤ current_price →
        calculate_discount_percent current_price retail_price = 0) ∧
    (∀ r, retail_price = some r → current_price < r →
        calculate_discount_percent current_price retail_price
          = round2 (((r - current_price) / r) * 100)) ∧
    0 ≤ calculate_discount_percent current_price retail_price ∧
    calculate_discount_percent current_price retail_price ≤ 100 := by
  have hbounds : 0 ≤ calculate_discount_percent current_price retail_price ∧
      calculate_discount_percent current_price retail_price ≤ 100 := by
    rcases retail_price with - | r
    · exact ⟨by norm_num [calculate_discount_percent], by norm_num [calculate_discount_percent]⟩
    · by_cases h0 : r = 0 ∨ current_price ≥ r
      · constructor
        · simp [calculate_discount_percent, h0]
        · norm_num [calculate_discount_percent, h0]
      · have hlt : current_price < r := by
          push_neg at h0
          exact h0.2
        have hr : 0 < r := lt_of_le_of_lt hc hlt
        have hy1 : 0 ≤ ((r - current_price) / r) * 100 := by
          have : 0 ≤ (r - current_price) / r := div_nonneg (by linarith) (le_of_lt hr)
          linarith
        have hy2 : ((r - current_price) / r) * 100 ≤ 100 := by
          have hle1 : (r - current_price) / r ≤ 1 := by
            rw [div_le_one hr]
            linarith
          linarith
        have hb := round2_bounds _ hy1 hy2
        constructor
        · simpa [calculate_discount_percent, h0] using hb.1
        · simpa [calculate_discount_percent, h0] using hb.2
  refine ⟨?_, ?_, ?_, hbounds.1, hbounds.2⟩
  · rintro rfl
    rfl
  · rintro r rfl hle
    have hcr : current_price ≥ r := by
      rcases hle with h | h
      · linarith
      · exact h
    simp [calculate_discount_percent, Or.inr hcr]
  · rintro r rfl hlt
    have h0 : ¬(r = 0 ∨ current_price ≥ r) := by
      push_neg
      constructor
      · intro h
        rw [h] at hlt
        linarith
      · exact hlt
    simp [calculate_discount_percent, h0]

/-- Witness for C8 at the spec's example: price 300, retail 1000 gives the
rounded 70 percent, inside `[0, 100]`. -/
theorem C8_witness :
    (0 : ℚ) ≤ 300 ∧
    (∀ r, (some (1000 : ℚ) : Option ℚ) = some r → (300 : ℚ) < r →
        calculate_discount_percent 300 (some 1000)
          = round2 (((r - 300) / r) * 100)) ∧
    0 ≤ calculate_discount_percent 300 (some 1000) ∧
    calculate_discount_percent 300 (some 1000) ≤ 100 :=
  ⟨by decide,
   (C8_discount_percent 300 (some 1000) (by decide)).2.2.1,
   (C8_discount_percent 300 (some 1000) (by decide)).2.2.2.1,
   (C8_discount_percent 300 (some 1000) (by decide)).2.2.2.2⟩

/-- The cache a fresh `_load_cache` builds is exactly the identity set
recorded in the file. -/
theorem load_cache_ids (f : FileContent) : (load_cache f).1.deals_cache = fileIds f := by
  cases f <;> rfl

/-- The records `save_deals` reads back carry the identity set of the file. -/
theorem fileIds_readExisting (f : FileContent) :
    ((readExisting f).map (fun sd => create_deal_id sd.product)).toFinset = fileIds f := by
  cases f <;> rfl

/-- Counterexample to C1: with one deal already persisted, a failing write
of a new deal returns normally (`False` in the exception slot — the
`except Exception` handler only prints), and a write failing after `open`
has truncated the file leaves it corrupt, destroying the persisted
history. The claim's surfaced-error guarantee fails at this input. -/
theorem C1_counterexample :
    (save_deals ⟨{"A|1.00"}, .good [⟨⟨"A", 1, 1, "", 0⟩, "t0"⟩] (some "t0")⟩
        [⟨"B", 2, 2, "", 0⟩] "t1" .openFail).2 = false ∧
    (save_deals ⟨{"A|1.00"}, .good [⟨⟨"A", 1, 1, "", 0⟩, "t0"⟩] (some "t0")⟩
        [⟨"B", 2, 2, "", 0⟩] "t1" .interrupted).1.file = .corrupt := by
  decide

/-- C1 as amended: an I/O failure during `save_deals` is never surfaced to
the caller (the handler prints and returns), and the previously persisted
history survives exactly the failures that happen before the file is
opened for writing: a failed `open` leaves the file unchanged, but a write
interrupted after `open` has truncated the file leaves it corrupt. -/
theorem C1_amended_commit_failure (st : Storage) (deals : List Product) (now : String)
    (w : WriteOutcome) :
    (save_deals st deals now w).2 = false ∧
    (w = .openFail → (save_deals st deals now w).1.file = st.file) ∧
    (deals ≠ [] → w = .interrupted → (save_deals st deals now w).1.file = .corrupt) := by
  refine ⟨?_, ?_, ?_⟩
  · by_cases h : deals = [] <;> simp [save_deals, h]
  · rintro rfl
    by_cases h : deals = [] <;> simp [save_deals, h]
  · rintro hne rfl
    simp [save_deals, hne]

/-- Witness for the amended C1 at a concrete store and failing commits. -/
theorem C1_witness :
    (save_deals ⟨∅, .missing⟩ [⟨"B", 2, 2, "", 0⟩] "t1" .openFail).2 = false ∧
    (save_deals ⟨∅, .missing⟩ [⟨"B", 2, 2, "", 0⟩] "t1" .openFail).1.file
        = FileContent.missing ∧
    (save_deals ⟨∅, .missing⟩ [⟨"B", 2, 2, "", 0⟩] "t1" .interrupted).1.file
        = FileContent.corrupt :=
  ⟨(C1_amended_commit_failure ⟨∅, .missing⟩ [⟨"B", 2, 2, "", 0⟩] "t1" .openFail).1,
   (C1_amended_commit_failure ⟨∅, .missing⟩ [⟨"B", 2, 2, "", 0⟩] "t1" .openFail).2.1 rfl,
   (C1_amended_commit_failure ⟨∅, .missing⟩ [⟨"B", 2, 2, "", 0⟩] "t1" .interrupted).2.2
     (by decide) rfl⟩

/-- Counterexample to C2: `save_deals` opens the storage file itself with
mode `'w'`, so a write interrupted mid-way leaves a corrupt file whose
recoverable identity set is empty, although the identity of deal `A` was
persisted before the commit — the write-new-then-replace discipline the
claim asserts would have preserved it. -/
theorem C2_counterexample :
    (save_deals ⟨{"A|1.00"}, .good [⟨⟨"A", 1, 1, "", 0⟩, "t0"⟩] (some "t0")⟩
        [⟨"B", 2, 2, "", 0⟩] "t1" .interrupted).1.file = .corrupt ∧
    fileIds ((save_deals ⟨{"A|1.00"}, .good [⟨⟨"A", 1, 1, "", 0⟩, "t0"⟩] (some "t0")⟩
        [⟨"B", 2, 2, "", 0⟩] "t1" .interrupted).1.file) = ∅ ∧
    create_deal_id ⟨"A", 1, 1, "", 0⟩
        ∈ fileIds (.good [⟨⟨"A", 1, 1, "", 0⟩, "t0"⟩] (some "t0")) := by
  decide

/-- C2 as amended: `save_deals` writes the storage file in place
(truncate-then-write, not write-new-then-replace): a completed write
stores the previous records followed by the stamped new deals, and a write
interrupted after `open` leaves a truncated, unparsable file. -/
theorem C2_amended_in_place_write (st : Storage) (deals : List Product) (now : String)
    (h : deals ≠ []) :
    (save_deals st deals now .ok).1.file
        = .good (readExisting st.file ++ deals.map (fun d => StoredDeal.mk d now))
            (some now) ∧
    (save_deals st deals now .interrupted).1.file = .corrupt := by
  constructor <;> simp [save_deals, h]

/-- Witness for the amended C2 at a concrete store with one prior record. -/
theorem C2_witness :
    (save_deals ⟨∅, .good [⟨⟨"A", 1, 1, "", 0⟩, "t0"⟩] (some "t0")⟩
        [⟨"B", 2, 2, "", 0⟩] "t1" .ok).1.file
        = .good (readExisting (.good [⟨⟨"A", 1, 1, "", 0⟩, "t0"⟩] (some "t0"))
            ++ [(⟨"B", 2, 2, "", 0⟩ : Product)].map (fun d => StoredDeal.mk d "t1"))
            (some "t1") ∧
    (save_deals ⟨∅, .good [⟨⟨"A", 1, 1, "", 0⟩, "t0"⟩] (some "t0")⟩
        [⟨"B", 2, 2, "", 0⟩] "t1" .interrupted).1.file = FileContent.corrupt :=
  ⟨(C2_amended_in_place_write ⟨∅, .good [⟨⟨"A", 1, 1, "", 0⟩, "t0"⟩] (some "t0")⟩
      [⟨"B", 2, 2, "", 0⟩] "t1" (by decide)).1,
   (C2_amended_in_place_write ⟨∅, .good [⟨⟨"A", 1, 1, "", 0⟩, "t0"⟩] (some "t0")⟩
      [⟨"B", 2, 2, "", 0⟩] "t1" (by decide)).2⟩

/-- C3: for a store whose cache agrees with its file (as `_load_cache`
builds it), after a successful `save_deals` every committed deal tests as
not new, and a fresh `_load_cache` of the written file reconstructs
exactly the union of the pre-commit identity set and the identities of the
committed deals. -/
theorem C3_commit_roundtrip (st : Storage) (deals : List Product) (now : String)
    (hwf : st.deals_cache = fileIds st.file) :
    (∀ d ∈ deals, is_new_deal (save_deals st deals now .ok).1 d = false) ∧
    (load_cache (save_deals st deals now .ok).1.file).1.deals_cache
        = st.deals_cache ∪ (deals.map create_deal_id).toFinset := by
  by_cases h : deals = []
  · subst h
    refine ⟨by simp, ?_⟩
    simp [save_deals, load_cache_ids, hwf]
  · have hcache : (save_deals st deals now .ok).1.deals_cache
        = st.deals_cache ∪ (deals.map create_deal_id).toFinset := by
      simp [save_deals, h]
    have hfile : (save_deals st deals now .ok).1.file
        = .good (readExisting st.file ++ deals.map (fun d => StoredDeal.mk d now))
            (some now) := by
      simp [save_deals, h]
    have hmap : (deals.map (fun d => StoredDeal.mk d now)).map
        (fun sd => create_deal_id sd.product) = deals.map create_deal_id := by
      rw [List.map_map]
      rfl
    constructor
    · intro d hd
      have hmem : create_deal_id d ∈ (deals.map create_deal_id).toFinset :=
        List.mem_toFinset.mpr (List.mem_map_of_mem _ hd)
      show decide (create_deal_id d ∉ (save_deals st deals now .ok).1.deals_cache) = false
      rw [hcache, decide_eq_false_iff_not, not_not]
      exact Finset.mem_union_right _ hmem
    · rw [load_cache_ids, hfile]
      show ((readExisting st.file
          ++ deals.map (fun d => StoredDeal.mk d now)).map
            (fun sd => create_deal_id sd.product)).toFinset
        = st.deals_cache ∪ (deals.map create_deal_id).toFinset
      rw [List.map_append, List.toFinset_append, hmap, fileIds_readExisting, hwf]

/-- Witness for C3: committing one deal into an empty store over a missing
file marks it as seen, and reloading recovers exactly its identity. -/
theorem C3_witness :
    (∅ : Finset String) = fileIds .missing ∧
    (∀ d ∈ [(⟨"B", 2, 2, "", 0⟩ : Product)],
        is_new_deal (save_deals ⟨∅, .missing⟩ [⟨"B", 2, 2, "", 0⟩] "t1" .ok).1 d = false) ∧
    (load_cache (save_deals ⟨∅, .missing⟩ [⟨"B", 2, 2, "", 0⟩] "t1" .ok).1.file).1.deals_cache
        = (∅ : Finset String) ∪ ([(⟨"B", 2, 2, "", 0⟩ : Product)].map create_deal_id).toFinset :=
  ⟨by decide,
   (C3_commit_roundtrip ⟨∅, .missing⟩ [⟨"B", 2, 2, "", 0⟩] "t1" (by decide)).1,
   (C3_commit_roundtrip ⟨∅, .missing⟩ [⟨"B", 2, 2, "", 0⟩] "t1" (by decide)).2⟩

/-- Splitting a successful `findSome?`: the list decomposes into rejected
tokens, the accepted token, and a remainder. -/
theorem findSome?_eq_some_split {α β : Type} (f : α → Option β) (l : List α) (b : β)
    (h : l.findSome? f = some b) :
    ∃ pre a post, l = pre ++ a :: post ∧ f a = some b ∧ ∀ u ∈ pre, f u = none := by
  induction l with
  | nil => simp at h
  | cons a l ih =>
      cases hfa : f a with
      | some c =>
          have hcb : c = b := by
            have := h
            simp [List.findSome?_cons, hfa] at this
            exact this
          subst hcb
          exact ⟨[], a, l, rfl, hfa, by simp⟩
      | none =>
          have h' : l.findSome? f = some b := by
            have := h
            simpa [List.findSome?_cons, hfa] using this
          obtain ⟨pre, x, post, rfl, hx, hpre⟩ := ih h'
          refine ⟨a :: pre, x, post, rfl, hx, ?_⟩
          intro u hu
          rcases List.mem_cons.mp hu with rfl | hu
          · exact hfa
          · exact hpre u hu

/-- Parser described by the spec's sentence about `_parse_price`, written
from the spec's words for comparison, not from the code: return the first
whitespace-delimited token that parses as a NON-NEGATIVE decimal number. -/
def parse_price_specWording (price_text : String) : Option ℚ :=
  (pySplit (cleanPriceText price_text.toList)).findSome?
    (fun t =>
      match pyFloat t with
      | some q => if 0 ≤ q then some q else none
      | none => none)

/-- Counterexample to C7: Python `float` accepts a sign, so on the input
`"-5"` the code returns the negative value `-5`, where the claim's
"first token that parses as a non-negative decimal number" rule returns
nothing. -/
theorem C7_counterexample :
    parse_price "-5" = some (-5) ∧
    parse_price_specWording "-5" = none ∧
    ¬(0 : ℚ) ≤ -5 := by
  decide

/-- C7 as amended: after stripping `$` and `,` and splitting on
whitespace, `_parse_price` returns the value of the first token accepted
by `float` — any decimal number, the sign being accepted, so possibly a
negative one — and `None` exactly when every token is rejected. -/
theorem C7_amended_parse_price (s : String) :
    (parse_price s = none ↔
      ∀ t ∈ pySplit (cleanPriceText s.toList), pyFloat t = none) ∧
    (∀ q, parse_price s = some q →
      ∃ pre t post, pySplit (cleanPriceText s.toList) = pre ++ t :: post ∧
        pyFloat t = some q ∧ ∀ u ∈ pre, pyFloat u = none) := by
  constructor
  · exact List.findSome?_eq_none_iff
  · intro q hq
    exact findSome?_eq_some_split pyFloat _ q hq

/-- Witness for the amended C7: a tokenless text gives `None`, and on
`"$999.99 was $1,299.99"` the first accepted token carries `999.99`. -/
theorem C7_witness :
    parse_price "abc def" = none ∧
    (∃ pre t post,
      pySplit (cleanPriceText ("$999.99 was $1,299.99" : String).toList)
          = pre ++ t :: post ∧
        pyFloat t = some (99999 / 100) ∧ ∀ u ∈ pre, pyFloat u = none) :=
  ⟨(C7_amended_parse_price "abc def").1.mpr (by decide),
   (C7_amended_parse_price "$999.99 was $1,299.99").2 (99999 / 100) (by decide)⟩

/-- C10: a scraped item with a non-empty name whose parsed price is
exactly `0` is dropped by `_extract_product_info` (the final
`if product_name and current_price:` check uses numeric truthiness), and
more generally every product the extractor does return has a nonzero
current price, so a zero-priced product can never reach the classifier,
the notifier, or the dedup store. -/
theorem C10_zero_price_dropped (item : Item) (nm pt : String)
    (hn : item.nameText = some nm) (hne : nm ≠ "")
    (ht : item.priceText = some pt) (hp : parse_price pt = some 0) :
    extract_product_info item = none ∧
    (∀ (j : Item) (p : Product), extract_product_info j = some p → p.current_price ≠ 0) := by
  constructor
  · simp [extract_product_info, hn, ht, hp, priceTruthy]
  · intro j p hj
    cases hj0 : j.nameText with
    | none => simp [extract_product_info, hj0] at hj
    | some n =>
        cases hcp : j.priceText.bind (fun t => parse_price t) with
        | none => simp [extract_product_info, hj0, hcp, priceTruthy] at hj
        | some c =>
            by_cases hc : c = 0
            · subst hc
              simp [extract_product_info, hj0, hcp, priceTruthy] at hj
            · simp only [extract_product_info, hj0, hcp] at hj
              by_cases hn0 : n = ""
              · subst hn0
                simp [priceTruthy] at hj
              · rw [if_pos (by simp [priceTruthy, bne_iff_ne, hn0, hc] :
                    (n != "" && priceTruthy (some c)) = true)] at hj
                have hpe := Option.some.inj hj
                rw [← hpe]
                exact hc

/-- Witness for C10: the zero-priced item `("Laptop", "$0.00")` is
extracted as `None`. -/
theorem C10_witness :
    (⟨some "Laptop", some "$0.00", none, none⟩ : Item).nameText = some "Laptop" ∧
    ("Laptop" : String) ≠ "" ∧
    parse_price "$0.00" = some 0 ∧
    extract_product_info ⟨some "Laptop", some "$0.00", none, none⟩ = none :=
  ⟨rfl, by decide, by decide,
   (C10_zero_price_dropped ⟨some "Laptop", some "$0.00", none, none⟩ "Laptop" "$0.00" rfl
      (by decide) rfl (by decide)).1⟩

example : parse_price "$1,299.99" = some (129999 / 100) := by decide
example : parse_price "$999.99 was $1,299.99" = some (99999 / 100) := by decide
example : parse_price "-5" = some (-5) := by decide
example : parse_price "no price here" = none := by decide
example : parse_price "1e2" = some 100 := by decide
example : create_deal_id ⟨" X ", 100, 200, "", 50⟩ = "X|100.00" := by decide
example : calculate_discount_percent 300 (some 1000) = 70 := by decide
example : find_deep_discounts DISCOUNT_THRESHOLD [⟨"A", 300, 1000, "", 70⟩, ⟨"B", 650, 1000, "", 35⟩]
    = [⟨"A", 300, 1000, "", 70⟩] := by decide
example : extract_product_info ⟨some "Laptop", some "$0.00", none, none⟩ = none := by decide
example : extract_product_info ⟨some "Laptop", some "$5", none, some "/x"⟩
    = some ⟨"Laptop", 5, 5, "https://www.bestbuy.com/x", 0⟩ := by decide
